import Mathlib

/-!
Shallow embedding of the dipin-saas-support-tickets backend (Python/FastAPI +
MongoDB) for checking its natural-language specification.

Timestamps (`datetime.utcnow()` / `time.time()`) are modelled as natural
numbers on a linear timeline; MongoDB collections are modelled as Lean lists
of documents, and the relevant update operators (`update_one`,
`find_one_and_update` with `upsert`) as first-match list transformations,
following the driver semantics the code relies on.
-/

set_option autoImplicit false

/-! ## Classifier (`src/services/classify_service.py`) -/

/-- Output record of `ClassifyService.classify`. -/
structure Classification where
  urgency : String
  sentiment : String
  requires_action : Bool
deriving DecidableEq, Repr

/-- Does `haystack` start with `needle`? (helper for the substring test). -/
def listStartsWith : List Char → List Char → Bool
  | [], _ => true
  | _ :: _, [] => false
  | c :: cs, d :: ds => c == d && listStartsWith cs ds

/-- Is `needle` a contiguous substring of `haystack`? -/
def listHasSubstr (needle : List Char) : List Char → Bool
  | [] => needle.isEmpty
  | d :: ds => listStartsWith needle (d :: ds) || listHasSubstr needle ds

/-- Python's substring test `needle in haystack`, on the character lists of the
two strings. -/
def strContains (haystack needle : String) : Bool :=
  listHasSubstr needle.data haystack.data

/-- `ClassifyService.classify(message, subject)`.  The body binds
`text = message` (the `subject` parameter is ignored by the source), then runs
the sequential keyword assignments of the source verbatim:
`urgency = "low"`, upgraded to `"medium"` when `"refund"` or `"lawsuit"`
occurs in `text`; `sentiment = "neutral"`, set to `"negative"` when `"angry"`
or `"broken"` occurs; `requires_action = False`. -/
def ClassifyService.classify (message subject : String) : Classification :=
  let text := message
  let urgency0 := "low"
  let urgency1 := if strContains text "refund" then "medium" else urgency0
  let urgency2 := if strContains text "lawsuit" then "medium" else urgency1
  let sentiment0 := "neutral"
  let sentiment1 :=
    if strContains text "angry" || strContains text "broken" then "negative" else sentiment0
  { urgency := urgency2, sentiment := sentiment1, requires_action := false }

/-! ## Upstream ticket payloads (shape served by `mock_external_api`) -/

/-- One upstream ticket payload, with the fields produced by
`mock_external_api/generate_seed.py` and consumed by the ingestion loop. -/
structure UpstreamTicket where
  id : String
  tenant_id : String
  source : String
  customer_id : String
  subject : String
  message : String
  created_at : Nat
  updated_at : Nat
  status : String
deriving DecidableEq, Repr

/-- The classification computed inside `IngestService.run_ingestion`:
the call site is `classify(ticket["subject"], ticket["message"])`, so the
ticket's subject is passed positionally as the classifier's `message`
parameter and the ticket's message as its `subject` parameter. -/
def ingestClassification (t : UpstreamTicket) : Classification :=
  ClassifyService.classify t.subject t.message

/-! ## Ticket documents and the listing endpoint (`src/api/routes.py`) -/

/-- A stored ticket document (collection `tickets`), with the persisted
fields used by the listing, analytics and ingestion code
(cf. `src/db/models.py` and the `$set` document of the ingestion upsert). -/
structure TicketDoc where
  tenant_id : String
  external_id : String
  source : String
  customer_id : String
  subject : String
  message : String
  status : String
  created_at : Nat
  updated_at : Nat
  urgency : String
  sentiment : String
  requires_action : Bool
  deleted_at : Option Nat
deriving DecidableEq, Repr

/-- The optional filters of `GET /tickets`. -/
structure ListQuery where
  status : Option String
  urgency : Option String
  source : Option String
deriving DecidableEq, Repr

/-- The Mongo query document built by `list_tickets`: only the optional
`status` / `urgency` / `source` filters are added (the tenant and
soft-delete predicates are absent in the source — Debug Task A). -/
def matchesListQuery (q : ListQuery) (d : TicketDoc) : Bool :=
  (match q.status with | some s => d.status == s | none => true) &&
  (match q.urgency with | some u => d.urgency == u | none => true) &&
  (match q.source with | some s => d.source == s | none => true)

/-- `list_tickets(tenant_id, status, urgency, source, page, page_size)`:
`db.tickets.find(query).skip((page - 1) * page_size).limit(page_size)` where
`query` carries only the optional filters.  The `tenant_id` parameter is
received but never used in the query. -/
def list_tickets (db : List TicketDoc) (tenant_id : String) (q : ListQuery)
    (page page_size : Nat) : List TicketDoc :=
  ((db.filter (matchesListQuery q)).drop ((page - 1) * page_size)).take page_size

/-! ## Lock service (`src/services/lock_service.py`)

The collection `distributed_locks` has no unique index on `resource_id`:
`src/db/indexes.py` creates indexes only for `tickets`, `ingestion_jobs` and
`ingestion_logs`.  `find_one_and_update(..., upsert=True)` therefore inserts a
fresh document whenever the filter matches nothing, and never raises a
duplicate-key error. -/

/-- A document of the `distributed_locks` collection. -/
structure LockDoc where
  resource_id : String
  owner_id : String
  acquired_at : Nat
  expires_at : Nat
  locked : Bool
deriving DecidableEq, Repr

def LockService.LOCK_TTL_SECONDS : Nat := 60

/-- The filter of `acquire_lock`:
`{resource_id, $or: [{locked: {$ne: true}}, {expires_at: {$lt: now}}]}`. -/
def lockAcquireFilter (resource_id : String) (now : Nat) (d : LockDoc) : Bool :=
  d.resource_id == resource_id && (!d.locked || d.expires_at < now)

/-- The document produced by the `$set` of `acquire_lock` (for the upsert
insert path this coincides with the inserted document, since the only
equality condition of the filter is `resource_id`). -/
def lockSetDoc (resource_id owner_id : String) (now : Nat) : LockDoc :=
  { resource_id := resource_id
    owner_id := owner_id
    acquired_at := now
    expires_at := now + LockService.LOCK_TTL_SECONDS
    locked := true }

/-- `find_one_and_update(filter, {$set: ...}, upsert=True,
return_document=AFTER)` on `distributed_locks`: replace the first document
matching the filter by the`$set` result and return it; if none matches,
insert a new document (no unique index exists to prevent this) and return
it. -/
def lockFindOneAndUpdate (db : List LockDoc) (resource_id owner_id : String)
    (now : Nat) : LockDoc × List LockDoc :=
  let newDoc := lockSetDoc resource_id owner_id now
  match db with
  | [] => (newDoc, [newDoc])
  | d :: rest =>
    if lockAcquireFilter resource_id now d then
      (newDoc, newDoc :: rest)
    else
      let r := lockFindOneAndUpdate rest resource_id owner_id now
      (r.1, d :: r.2)

/-- `LockService.acquire_lock(resource_id, owner_id)` at time `now`: run the
upserting `find_one_and_update` and return
`result.get("owner_id") == owner_id` together with the new collection
state. -/
def LockService.acquire_lock (db : List LockDoc) (resource_id owner_id : String)
    (now : Nat) : Bool × List LockDoc :=
  let r := lockFindOneAndUpdate db resource_id owner_id now
  (r.1.owner_id == owner_id, r.2)

/-- A live lock in the sense of the specification: `locked = true` and
`expires_at > now`. -/
def liveLock (db : List LockDoc) (resource_id : String) (now : Nat) : Bool :=
  db.any (fun d => d.resource_id == resource_id && d.locked && now < d.expires_at)

/-! ## Rate limiter (`src/services/rate_limiter.py`)

The sliding-window `RateLimiter` keeps `requests_per_minute`,
`window_seconds = 60` and a deque `request_times` of acquisition timestamps.
In the source both `acquire` and `wait_and_acquire` are unimplemented stubs:
`acquire` is `return 0` under a `# TODO: implement` comment and
`wait_and_acquire` is `pass`. -/

/-- State of one `RateLimiter` instance. -/
structure RateLimiterState where
  requests_per_minute : Nat
  window_seconds : Nat
  request_times : List Nat
deriving DecidableEq, Repr

/-- The global singleton returned by `get_rate_limiter()`:
`RateLimiter(requests_per_minute=60)` with `window_seconds = 60` and an empty
deque. -/
def get_rate_limiter : RateLimiterState :=
  { requests_per_minute := 60, window_seconds := 60, request_times := [] }

/-- `RateLimiter.acquire()` at time `now`, as written in the source: the body
is `return 0` — it inspects nothing, records nothing, and reports a wait of
zero seconds. -/
def RateLimiter.acquire (s : RateLimiterState) (now : Nat) : Nat × RateLimiterState :=
  (0, s)

/-- `RateLimiter.wait_and_acquire()` at time `now`, as written in the source:
the body is `pass` — it returns immediately with the state untouched. -/
def RateLimiter.wait_and_acquire (s : RateLimiterState) (now : Nat) : RateLimiterState :=
  s

/-- `RateLimiter.get_status()` at time `now`: pop timestamps older than the
window from the front of the deque, then report limit, window, current count
and remaining budget. -/
def RateLimiter.get_status (s : RateLimiterState) (now : Nat) :
    (Nat × Nat × Nat × Nat) × RateLimiterState :=
  let times := s.request_times.dropWhile (fun t => now - t > s.window_seconds)
  let current := times.length
  ((s.requests_per_minute, s.window_seconds, current,
    s.requests_per_minute - current),
   { s with request_times := times })

/-- Iterated calls to `acquire` at a fixed instant, collecting the returned
wait times. -/
def acquireRepeat (s : RateLimiterState) (now : Nat) : Nat → List Nat × RateLimiterState
  | 0 => ([], s)
  | n + 1 =>
    let r := RateLimiter.acquire s now
    let rest := acquireRepeat r.2 now n
    (r.1 :: rest.1, rest.2)

/-! ## Circuit breaker (`src/services/circuit_breaker.py`)

`state` (the property) and the bookkeeping fields are implemented; `call`,
`_on_success`, `_on_failure` and `_should_open` are `pass` / `return False`
stubs. -/

inductive CircuitState where
  | CLOSED
  | OPEN
  | HALF_OPEN
deriving DecidableEq, Repr

structure CircuitBreakerConfig where
  failure_threshold : Nat
  success_threshold : Nat
  window_size : Nat
  timeout_seconds : Nat
  half_open_max_calls : Nat
deriving DecidableEq, Repr

/-- The defaults of `CircuitBreakerConfig`. -/
def defaultCircuitBreakerConfig : CircuitBreakerConfig :=
  { failure_threshold := 5, success_threshold := 1, window_size := 10
    timeout_seconds := 30, half_open_max_calls := 1 }

/-- The mutable fields of a `CircuitBreaker` instance. -/
structure CircuitBreakerState where
  config : CircuitBreakerConfig
  state_field : CircuitState
  failure_count : Nat
  success_count : Nat
  opened_at : Option Nat
  recent_results : List Bool
  half_open_calls : Nat
deriving DecidableEq, Repr

/-- `CircuitBreaker.__init__`: a fresh breaker in `CLOSED` with empty
window. -/
def CircuitBreaker.mk_ (config : CircuitBreakerConfig) : CircuitBreakerState :=
  { config := config, state_field := CircuitState.CLOSED, failure_count := 0
    success_count := 0, opened_at := none, recent_results := []
    half_open_calls := 0 }

/-- The `state` property at time `now`: in `OPEN`, once
`now - opened_at >= timeout_seconds`, switch to `HALF_OPEN` and reset
`half_open_calls`; otherwise return the stored state unchanged. -/
def CircuitBreaker.state (cb : CircuitBreakerState) (now : Nat) :
    CircuitState × CircuitBreakerState :=
  match cb.state_field, cb.opened_at with
  | CircuitState.OPEN, some t =>
    if cb.config.timeout_seconds ≤ now - t then
      (CircuitState.HALF_OPEN,
       { cb with state_field := CircuitState.HALF_OPEN, half_open_calls := 0 })
    else (CircuitState.OPEN, cb)
  | st, _ => (st, cb)

/-- Result of `CircuitBreaker.call` as observed by the caller: either the
wrapped function's value is returned, or `CircuitBreakerOpenError(retry_after)`
is raised, or — as the stubbed source does — the coroutine falls through and
yields Python's `None`. -/
inductive CallOutcome (α : Type) where
  | value (a : α)
  | breakerOpenError (retry_after : Nat)
  | pyNone
deriving DecidableEq, Repr

/-- `CircuitBreaker.call(func)` at time `now`, as written in the source: the
body is `pass` — the wrapped function is never invoked, no error is raised,
and the state is untouched; the caller receives `None`. -/
def CircuitBreaker.call {α : Type} (cb : CircuitBreakerState) (func : Unit → α)
    (now : Nat) : CallOutcome α × CircuitBreakerState :=
  (CallOutcome.pyNone, cb)

/-! ## Sync service (`src/services/sync_service.py`)

`record_history`, `get_ticket_history` and `compute_changes` are implemented;
`sync_ticket`, `mark_deleted` and `detect_deleted_tickets` are TODO stubs. -/

/-- A document of the append-only `ticket_history` collection. -/
structure HistoryEntry where
  ticket_id : String
  tenant_id : String
  action : String
  changes : List (String × (Option String × Option String))
  recorded_at : Nat
deriving DecidableEq, Repr

/-- Return value of `SyncService.sync_ticket`. -/
structure SyncResult where
  action : String
  ticket_id : String
  changes : List String
deriving DecidableEq, Repr

/-- `SyncService.sync_ticket(external_ticket, tenant_id)` as written in the
source: the body is a TODO stub that performs no lookup, writes neither the
`tickets` nor the `ticket_history` collection, and always returns
`{"action": "unchanged", "ticket_id": external_ticket.get("id"),
"changes": []}`. -/
def SyncService.sync_ticket (tickets : List TicketDoc)
    (history : List HistoryEntry) (external_ticket : UpstreamTicket)
    (tenant_id : String) : SyncResult × List TicketDoc × List HistoryEntry :=
  ({ action := "unchanged", ticket_id := external_ticket.id, changes := [] },
   tickets, history)

/-! ## Ingestion upsert (`src/services/ingest_service.py`, page loop)

For each upstream ticket the loop computes
`classification = classify(ticket["subject"], ticket["message"])` and runs
`db.tickets.update_one({tenant_id, external_id: ticket["id"]},
{"$set": {**ticket, **classification, "tenant_id": tenant_id,
"external_id": ticket["id"], "updated_at": datetime.utcnow()}}, upsert=True)`.
Later keys of the Python dict literal win, so the stored `updated_at` is the
ingestion wall-clock time, not the upstream value. -/

/-- Does a stored document match the upsert filter
`{tenant_id, external_id}`? -/
def TicketDoc.matchesKey (d : TicketDoc) (tenant_id external_id : String) : Bool :=
  d.tenant_id == tenant_id && d.external_id == external_id

/-- The `$set` document of the ingestion upsert applied to an existing stored
document `old`: every payload field, the classification fields, the tenant
key and `updated_at := now` are overwritten; `deleted_at` is not part of the
`$set` and survives. -/
def upsertSetFields (tenant_id : String) (t : UpstreamTicket) (now : Nat)
    (old : TicketDoc) : TicketDoc :=
  { tenant_id := tenant_id
    external_id := t.id
    source := t.source
    customer_id := t.customer_id
    subject := t.subject
    message := t.message
    status := t.status
    created_at := t.created_at
    updated_at := now
    urgency := (ingestClassification t).urgency
    sentiment := (ingestClassification t).sentiment
    requires_action := (ingestClassification t).requires_action
    deleted_at := old.deleted_at }

/-- The document inserted by the upsert when no document matches the filter:
the filter's equality fields plus the `$set` document (no `deleted_at`
field). -/
def upsertInsertDoc (tenant_id : String) (t : UpstreamTicket) (now : Nat) : TicketDoc :=
  upsertSetFields tenant_id t now
    { tenant_id := tenant_id, external_id := t.id, source := "", customer_id := ""
      subject := "", message := "", status := "", created_at := 0, updated_at := 0
      urgency := "", sentiment := "", requires_action := false, deleted_at := none }

/-- Outcome of `update_one(..., upsert=True)` as read by the page loop. -/
structure UpdateResult where
  matched : Bool
  modified_count : Nat
  upserted : Bool
deriving DecidableEq, Repr

/-- `db.tickets.update_one({tenant_id, external_id}, {$set: ...},
upsert=True)`: update the first (under the unique index, only) document
matching the key, reporting `modified_count = 1` exactly when the `$set`
changed it; insert a fresh document (reporting an `upserted_id`) when none
matches. -/
def applyUpsert (tenant_id : String) (t : UpstreamTicket) (now : Nat) :
    List TicketDoc → UpdateResult × List TicketDoc
  | [] =>
    ({ matched := false, modified_count := 0, upserted := true },
     [upsertInsertDoc tenant_id t now])
  | d :: rest =>
    if d.matchesKey tenant_id t.id then
      let d' := upsertSetFields tenant_id t now d
      ({ matched := true, modified_count := if d' = d then 0 else 1,
         upserted := false }, d' :: rest)
    else
      let r := applyUpsert tenant_id t now rest
      (r.1, d :: r.2)

/-- One ingestion pass over an upstream payload list at wall-clock time
`now`: fold the per-ticket upsert over the store (all pages concatenated;
within the run every upsert stamps `updated_at` with its call time, which we
take to be the single instant `now`). -/
def runUpserts (tenant_id : String) (now : Nat) (ts : List UpstreamTicket)
    (db : List TicketDoc) : List TicketDoc :=
  ts.foldl (fun acc t => (applyUpsert tenant_id t now acc).2) db

/-- Is a ticket with the given `(tenant_id, external_id)` key stored? -/
def containsKey (db : List TicketDoc) (tenant_id external_id : String) : Bool :=
  db.any (fun d => d.matchesKey tenant_id external_id)

/-- Number of stored ticket documents of one tenant. -/
def countTenant (db : List TicketDoc) (tenant_id : String) : Nat :=
  (db.filter (fun d => d.tenant_id == tenant_id)).length

/-! ## Ingestion job records (`src/services/ingest_service.py`)

Two operations write the `status` of an `ingestion_jobs` document after
creation: the terminal write at the end of `run_ingestion`
(`update_one({"_id": job_id}, {"$set": {"status": "completed", ...}})` — with
no predicate on the current status) and `cancel_job`
(`update_one({"_id": job_id, "status": "running"}, {"$set":
{"status": "cancelled", ...}})`). -/

/-- A document of the `ingestion_jobs` collection. -/
structure JobDoc where
  id : String
  tenant_id : String
  status : String
  started_at : Nat
  ended_at : Option Nat
deriving DecidableEq, Repr

/-- `update_one`: rewrite the first document matching the filter with `f`,
returning Mongo's `modified_count`. -/
def updateFirst (filt : JobDoc → Bool) (f : JobDoc → JobDoc) :
    List JobDoc → Nat × List JobDoc
  | [] => (0, [])
  | d :: rest =>
    if filt d then
      let d' := f d
      ((if d' = d then 0 else 1), d' :: rest)
    else
      let r := updateFirst filt f rest
      (r.1, d :: r.2)

/-- The terminal write of `run_ingestion` on success:
`update_one({"_id": job_id}, {"$set": {"status": "completed",
"ended_at": now}})` — no condition on the current status. -/
def IngestService.completeJobWrite (job_id : String) (now : Nat)
    (db : List JobDoc) : Nat × List JobDoc :=
  updateFirst (fun d => d.id == job_id)
    (fun d => { d with status := "completed", ended_at := some now }) db

/-- `IngestService.cancel_job(job_id)`:
`update_one({"_id": job_id, "status": "running"}, {"$set":
{"status": "cancelled", "ended_at": now}})`, returning
`modified_count > 0`. -/
def IngestService.cancel_job (job_id : String) (now : Nat)
    (db : List JobDoc) : Bool × List JobDoc :=
  let r := updateFirst (fun d => d.id == job_id && d.status == "running")
    (fun d => { d with status := "cancelled", ended_at := some now }) db
  (decide (0 < r.1), r.2)

/-! ## Analytics planner (`src/services/analytics_service.py`)

`get_tenant_stats` runs one aggregation pipeline: `$match` on
`{tenant_id, deleted_at: None}`, a `$facet` with `total` (`$count`),
`by_status` / `by_urgency` (`$group` with `$sum: 1`) and `hourly_trend`
(range `$match` on `created_at` plus `$group` by hour), then a `$project`
computing the output shape.  A `$facet` pipeline emits exactly one document
even on an empty collection, so the `if not results` fallback never fires. -/

/-- The `$match` stage: `{tenant_id: tenant_id, deleted_at: None}` (Mongo's
`None` matches a null or absent field; the model stores absent-or-null as
`none`). -/
def analyticsMatch (tenant_id : String) (d : TicketDoc) : Bool :=
  d.tenant_id == tenant_id && d.deleted_at == none

/-- The `total` facet, `[{$count: "count"}]`: a `$count` emits no document at
all on an empty input, so `$arrayElemAt: ["$total.count", 0]` is "missing"
exactly when the match produced nothing. -/
def facetTotal (l : List TicketDoc) : Option Nat :=
  if l.length = 0 then none else some l.length

/-- A `$group` on a key with `{$sum: 1}`: one output document per distinct
key carrying the number of its occurrences (output order is irrelevant to the
pipeline's consumers; the model lists keys in first-occurrence order). -/
def groupCounts (keys : List String) : List (String × Nat) :=
  keys.dedup.map (fun k => (k, keys.count k))

/-- The `$reduce` inside `urgency_high_ratio`: fold the `by_urgency` facet
with initial value 0, adding `count` whenever the group key is `"high"`. -/
def highUrgencyFold (acc : Nat) (groups : List (String × Nat)) : Nat :=
  groups.foldl (fun a g => if g.1 == "high" then a + g.2 else a) acc

/-- Output document of the stats pipeline (`$project` stage). -/
structure TenantStatsDoc where
  total_tickets : Nat
  by_status : List (String × Nat)
  urgency_high_ratio : ℚ
  hourly_trend : List (Nat × Nat)
deriving DecidableEq, Repr

/-- `AnalyticsService.get_tenant_stats(tenant_id, from_date, to_date)`
(dates already defaulted by the caller): the aggregation pipeline of the
source, with `$dateToString`'s hour bucket modelled as `created_at / 3600` on
the linear timeline. -/
def AnalyticsService.get_tenant_stats (db : List TicketDoc) (tenant_id : String)
    (from_date to_date : Nat) : TenantStatsDoc :=
  let matched := db.filter (analyticsMatch tenant_id)
  let total := facetTotal matched
  let by_status := groupCounts (matched.map (fun d => d.status))
  let by_urgency := groupCounts (matched.map (fun d => d.urgency))
  let inRange := matched.filter (fun d => from_date ≤ d.created_at && d.created_at ≤ to_date)
  let trendKeys := (inRange.map (fun d => d.created_at / 3600)).dedup
  let hourly_trend := (trendKeys.mergeSort (fun a b => a ≤ b)).map
    (fun h => (h, (inRange.map (fun d => d.created_at / 3600)).count h))
  { total_tickets := (match total with | some n => n | none => 0)
    by_status := by_status
    urgency_high_ratio :=
      (if (match total with | some n => decide (0 < n) | none => false) then
        ((highUrgencyFold 0 by_urgency : ℚ) /
          ((match total with | some n => n | none => 0) : ℚ))
      else 0)
    hourly_trend := hourly_trend }

/-! ## Concrete sample data used by the evaluation theorems -/

/-- A soft-deleted ticket of `tenant_b` (concrete store content for the
listing-endpoint evaluation). -/
def tenantBDeletedDoc : TicketDoc :=
  { tenant_id := "tenant_b", external_id := "ext-001", source := "email"
    customer_id := "cust_101", subject := "Issue ext-001", message := "help"
    status := "open", created_at := 0, updated_at := 0, urgency := "low"
    sentiment := "neutral", requires_action := false, deleted_at := some 5 }

/-- A live lock held by owner `"A"` on `ingest:tenant_x`
(acquired at 0, expires at 60). -/
def lockHeldByA : LockDoc :=
  { resource_id := "ingest:tenant_x", owner_id := "A", acquired_at := 0
    expires_at := 60, locked := true }

/-- A breaker that entered `OPEN` at time 100 (default config, 30 s
timeout). -/
def openBreaker : CircuitBreakerState :=
  { CircuitBreaker.mk_ defaultCircuitBreakerConfig with
      state_field := CircuitState.OPEN, opened_at := some 100 }

/-- A concrete upstream payload. -/
def samplePayload : UpstreamTicket :=
  { id := "ext-001", tenant_id := "tenant_a", source := "email"
    customer_id := "cust_101", subject := "Issue ext-001: refund"
    message := "This is a message about refund.", created_at := 100
    updated_at := 200, status := "open" }

/-- The ticket store after a first ingestion upsert of `samplePayload` at
wall-clock time 1. -/
def storeAfterFirstUpsert : List TicketDoc :=
  (applyUpsert "tenant_a" samplePayload 1 []).2

/-- A running ingestion job record. -/
def runningJob : JobDoc :=
  { id := "job1", tenant_id := "tenant_a", status := "running"
    started_at := 0, ended_at := none }

/-- The store holding exactly `runningJob`. -/
def jobsDb : List JobDoc := [runningJob]

/-- `runningJob` after `cancel_job` at time 5. -/
def cancelledJob : JobDoc :=
  { id := "job1", tenant_id := "tenant_a", status := "cancelled"
    started_at := 0, ended_at := some 5 }

/-! ## Theorems -/

/-- Claim C1 (code evaluated at the failing input): `GET /tickets` with
`tenant_id = "tenant_a"` and no filters returns a stored ticket that belongs
to `tenant_b` and is soft-deleted — the listing query carries neither a
tenant predicate nor a `deleted_at` predicate (Debug Task A), so the claimed
guarantee `tenant_id == T ∧ deleted_at is null` fails for the returned
row. -/
theorem list_tickets_ignores_tenant_and_soft_delete :
    list_tickets [tenantBDeletedDoc] "tenant_a" ⟨none, none, none⟩ 1 20
      = [tenantBDeletedDoc]
    ∧ tenantBDeletedDoc.tenant_id ≠ "tenant_a"
    ∧ tenantBDeletedDoc.deleted_at ≠ none := by
  refine ⟨rfl, by decide, by decide⟩

/-- Claim C2 (code evaluated at the failing input): with a live lock
(`locked = true`, `expires_at = 60 > now = 10`) held by owner `"A"` on
`ingest:tenant_x`, `acquire_lock("ingest:tenant_x", "B")` returns `True` —
the filter matches nothing, and because `src/db/indexes.py` never creates a
unique index on `distributed_locks.resource_id`, the `upsert=True` inserts a
second lock document instead of raising a duplicate-key error, so the call
reports success although a live lock excludes it. -/
theorem acquire_lock_succeeds_despite_live_lock :
    liveLock [lockHeldByA] "ingest:tenant_x" 10 = true
    ∧ LockService.acquire_lock [lockHeldByA] "ingest:tenant_x" "B" 10
      = (true, [lockHeldByA, lockSetDoc "ingest:tenant_x" "B" 10]) := by
  refine ⟨by decide, by decide⟩

/-- Claim C3 (code evaluated at the failing input): the global limiter
(`R = 60`, `W = 60`) lets 61 consecutive `acquire()` calls at the same
instant all complete immediately with wait time 0, recording none of them —
so a 60-second window contains 61 completed acquisitions, exceeding the
limit; `acquire` is a `return 0` stub. -/
theorem rate_limiter_admits_61_calls_in_one_window :
    (acquireRepeat get_rate_limiter 0 61).1 = List.replicate 61 0
    ∧ (acquireRepeat get_rate_limiter 0 61).2 = get_rate_limiter := by
  refine ⟨by decide, by decide⟩

/-- Claim C4 (code evaluated at the failing input): `CircuitBreaker.call` is
a `pass` stub — on a fresh `CLOSED` breaker it yields Python `None` instead
of executing the wrapped function and returning its value 42, and on a
breaker that is `OPEN` with `now - opened_at = 5 < timeout = 30` it also
yields `None` instead of raising `CircuitBreakerOpenError`. -/
theorem circuit_breaker_call_is_stub :
    CircuitBreaker.call (CircuitBreaker.mk_ defaultCircuitBreakerConfig)
      (fun _ => (42 : Nat)) 0
      = (CallOutcome.pyNone, CircuitBreaker.mk_ defaultCircuitBreakerConfig)
    ∧ CircuitBreaker.call openBreaker (fun _ => (42 : Nat)) 105
      = (CallOutcome.pyNone, openBreaker)
    ∧ (CircuitBreaker.state openBreaker 105).1 = CircuitState.OPEN := by
  refine ⟨rfl, rfl, by decide⟩

/-- Claim C5 (code evaluated at the failing input): `sync_ticket` is a TODO
stub — for a payload whose `(tenant_id, external_id)` is absent from the
store it returns `action = "unchanged"` and writes neither the ticket nor a
`created` history entry, where the claim requires an insert, a `created`
history entry and `action = created`. -/
theorem sync_ticket_stub_returns_unchanged_on_absent_ticket :
    SyncService.sync_ticket [] [] samplePayload "tenant_a"
      = ({ action := "unchanged", ticket_id := "ext-001", changes := [] }, [], []) := rfl

/-- Claim C9 (counterexample): keyword matching is neither case-insensitive
nor performed on the concatenation of subject and message — lowering the
case of `"Refund"` changes the computed urgency, and moving the keyword
`"refund"` from the message parameter into the subject parameter also
changes it. -/
theorem classify_not_case_insensitive_and_not_on_concatenation :
    ClassifyService.classify "refund" "" ≠ ClassifyService.classify "Refund" ""
    ∧ ClassifyService.classify "" "refund" ≠ ClassifyService.classify "refund" "" := by
  refine ⟨by decide, by decide⟩

/-- Claim C9 (amended): the classifier is a pure deterministic function of
its `message` parameter alone — the `subject` parameter never influences the
`{urgency, sentiment, requires_action}` output (keyword matching is
case-sensitive substring search on the message text only). -/
theorem classify_pure_function_of_message (message s1 s2 : String) :
    ClassifyService.classify message s1 = ClassifyService.classify message s2 := rfl

/-- Claim C10: the classification stored by `run_ingestion` depends only on
the ticket's subject — the call site passes `ticket["subject"]` positionally
as the classifier's `message` parameter, and the classifier reads only that
parameter, so two upstream tickets with equal subjects and arbitrary
messages receive identical labels. -/
theorem ingest_classification_depends_only_on_subject (t1 t2 : UpstreamTicket)
    (h : t1.subject = t2.subject) :
    ingestClassification t1 = ingestClassification t2 := by
  unfold ingestClassification
  rw [h]
  rfl

/-- Witness for `ingest_classification_depends_only_on_subject`: two concrete
payloads sharing a subject but with different messages (one containing the
keywords, one not) classify identically. -/
theorem ingest_classification_depends_only_on_subject_witness :
    ingestClassification
      { id := "e1", tenant_id := "t", source := "email", customer_id := "c"
        subject := "broken refund", message := "angry customer lawsuit"
        created_at := 0, updated_at := 0, status := "open" }
      = ingestClassification
      { id := "e2", tenant_id := "t", source := "web", customer_id := "c2"
        subject := "broken refund", message := "no keywords here"
        created_at := 5, updated_at := 7, status := "closed" } :=
  ingest_classification_depends_only_on_subject _ _ rfl

/-- Helper: every document in the output of `updateFirst` is either an
untouched document of the input or the image under `f` of an input document
satisfying the filter. -/
theorem updateFirst_mem (filt : JobDoc → Bool) (f : JobDoc → JobDoc) :
    ∀ (db : List JobDoc), ∀ d' ∈ (updateFirst filt f db).2,
      d' ∈ db ∨ ∃ d ∈ db, filt d = true ∧ d' = f d := by
  intro db
  induction db with
  | nil =>
    intro d' hd
    simp [updateFirst] at hd
  | cons d rest ih =>
    intro d' hd
    by_cases hf : filt d
    · simp [updateFirst, hf] at hd
      rcases hd with hd | hd
      · exact Or.inr ⟨d, List.mem_cons_self d rest, hf, hd⟩
      · exact Or.inl (List.mem_cons_of_mem d hd)
    · simp only [updateFirst, hf, Bool.false_eq_true, if_false, List.mem_cons] at hd
      rcases hd with hd | hd
      · exact Or.inl (by simp [hd])
      · rcases ih d' hd with h | ⟨e, he, hfe, hde⟩
        · exact Or.inl (List.mem_cons_of_mem d h)
        · exact Or.inr ⟨e, List.mem_cons_of_mem d he, hfe, hde⟩

/-- Claim C7 (counterexample): a job cancelled mid-run is later overwritten
to `completed` — starting from a `running` job, `cancel_job` produces the
terminal status `cancelled`, and `run_ingestion`'s unconditioned terminal
write (`update_one({"_id": job_id}, {"$set": {"status": "completed", ...}})`)
then changes the status of this no-longer-running job again, to
`completed`. -/
theorem cancelled_job_overwritten_to_completed :
    (IngestService.cancel_job "job1" 5 jobsDb).2 = [cancelledJob]
    ∧ cancelledJob.status ≠ "running"
    ∧ (IngestService.completeJobWrite "job1" 9 [cancelledJob]).2
      = [{ id := "job1", tenant_id := "tenant_a", status := "completed"
           started_at := 0, ended_at := some 9 }] := by
  refine ⟨by decide, by decide, by decide⟩

/-- Claim C7 (amended): `cancel_job` rewrites only a job whose current
status is `running` (to `cancelled`), so it never disturbs a terminal
status; `run_ingestion`'s terminal write, however, rewrites the addressed
job to `completed` whatever its current status is — hence the realizable
transitions of the two status writers are `running → cancelled` and
`any status → completed`, and a job that was cancelled during a run is
subsequently changed once more, to `completed`. -/
theorem job_status_write_transitions (db : List JobDoc) (job_id : String) (now : Nat) :
    (∀ d' ∈ (IngestService.cancel_job job_id now db).2,
        d' ∈ db ∨ ∃ d ∈ db, d.status = "running"
          ∧ d' = { d with status := "cancelled", ended_at := some now })
    ∧ (∀ d' ∈ (IngestService.completeJobWrite job_id now db).2,
        d' ∈ db ∨ ∃ d ∈ db, d' = { d with status := "completed", ended_at := some now }) := by
  constructor
  · intro d' hd
    rcases updateFirst_mem _ _ db d' hd with h | ⟨d, hdm, hfd, hde⟩
    · exact Or.inl h
    · simp only [Bool.and_eq_true, beq_iff_eq] at hfd
      exact Or.inr ⟨d, hdm, hfd.2, hde⟩
  · intro d' hd
    rcases updateFirst_mem _ _ db d' hd with h | ⟨d, hdm, _, hde⟩
    · exact Or.inl h
    · exact Or.inr ⟨d, hdm, hde⟩

/-- Witness for `job_status_write_transitions`: applied to the one-element
store holding a running job, discharging the membership hypothesis for the
cancelled document it produces. -/
theorem job_status_write_transitions_witness :
    cancelledJob ∈ jobsDb ∨ ∃ d ∈ jobsDb, d.status = "running"
      ∧ cancelledJob = { d with status := "cancelled", ended_at := some 5 } :=
  (job_status_write_transitions jobsDb "job1" 5).1 cancelledJob (by decide)

/-- Unfolding lemma: an ingestion pass over an empty payload list. -/
theorem runUpserts_nil (tn : String) (now : Nat) (db : List TicketDoc) :
    runUpserts tn now [] db = db := rfl

/-- Unfolding lemma: an ingestion pass over `t :: ts` upserts `t` first. -/
theorem runUpserts_cons (tn : String) (now : Nat) (t : UpstreamTicket)
    (ts : List UpstreamTicket) (db : List TicketDoc) :
    runUpserts tn now (t :: ts) db = runUpserts tn now ts (applyUpsert tn t now db).2 := rfl


/-- Unfolding lemma: the upsert on a store whose head matches the key. -/
theorem applyUpsert_cons_pos (tn : String) (t : UpstreamTicket) (now : Nat)
    (d : TicketDoc) (rest : List TicketDoc) (hm : d.matchesKey tn t.id = true) :
    applyUpsert tn t now (d :: rest)
      = ({ matched := true
           modified_count := if upsertSetFields tn t now d = d then 0 else 1
           upserted := false }, upsertSetFields tn t now d :: rest) := by
  simp [applyUpsert, hm]

/-- Unfolding lemma: the upsert on a store whose head misses the key. -/
theorem applyUpsert_cons_neg (tn : String) (t : UpstreamTicket) (now : Nat)
    (d : TicketDoc) (rest : List TicketDoc) (hm : d.matchesKey tn t.id = false) :
    applyUpsert tn t now (d :: rest)
      = ((applyUpsert tn t now rest).1, d :: (applyUpsert tn t now rest).2) := by
  simp [applyUpsert, hm]

/-- Unfolding lemma: key membership in a non-empty store. -/
theorem containsKey_cons (d : TicketDoc) (rest : List TicketDoc) (tn eid : String) :
    containsKey (d :: rest) tn eid = (d.matchesKey tn eid || containsKey rest tn eid) := rfl

/-- Unfolding lemma: per-tenant document count of a non-empty store. -/
theorem countTenant_cons (d : TicketDoc) (rest : List TicketDoc) (tn : String) :
    countTenant (d :: rest) tn
      = if d.tenant_id == tn then countTenant rest tn + 1 else countTenant rest tn := by
  by_cases hd : d.tenant_id == tn <;> simp [countTenant, List.filter_cons, hd]

/-- Helper: a key match determines the head's tenant and external id. -/
theorem matchesKey_true_iff (d : TicketDoc) (tn eid : String) :
    d.matchesKey tn eid = true ↔ d.tenant_id = tn ∧ d.external_id = eid := by
  simp [TicketDoc.matchesKey]

/-- Helper: the upsert never removes a stored `(tenant_id, external_id)` key. -/
theorem containsKey_applyUpsert_of (tn : String) (t : UpstreamTicket)
    (now : Nat) (eid : String) :
    ∀ db : List TicketDoc, containsKey db tn eid = true →
      containsKey (applyUpsert tn t now db).2 tn eid = true := by
  intro db
  induction db with
  | nil => intro h; simp [containsKey] at h
  | cons d rest ih =>
    intro h
    rw [containsKey_cons, Bool.or_eq_true] at h
    by_cases hm : d.matchesKey tn t.id = true
    · obtain ⟨hm1, hm2⟩ := (matchesKey_true_iff d tn t.id).mp hm
      rw [applyUpsert_cons_pos tn t now d rest hm]
      rw [containsKey_cons, Bool.or_eq_true]
      rcases h with h | h
      · obtain ⟨-, he⟩ := (matchesKey_true_iff d tn eid).mp h
        left
        rw [matchesKey_true_iff]
        exact ⟨rfl, (hm2.symm.trans he : t.id = eid)⟩
      · exact Or.inr h
    · rw [applyUpsert_cons_neg tn t now d rest (by simpa using hm)]
      rw [containsKey_cons, Bool.or_eq_true]
      rcases h with h | h
      · exact Or.inl h
      · exact Or.inr (ih h)

/-- Helper: after the upsert for payload `t`, the key `(tn, t.id)` is
stored. -/
theorem containsKey_applyUpsert_self (tn : String) (t : UpstreamTicket) (now : Nat) :
    ∀ db : List TicketDoc, containsKey (applyUpsert tn t now db).2 tn t.id = true := by
  intro db
  induction db with
  | nil =>
    simp [containsKey, applyUpsert, upsertInsertDoc, upsertSetFields, TicketDoc.matchesKey]
  | cons d rest ih =>
    by_cases hm : d.matchesKey tn t.id = true
    · rw [applyUpsert_cons_pos tn t now d rest hm, containsKey_cons, Bool.or_eq_true]
      left
      simp [matchesKey_true_iff, upsertSetFields]
    · rw [applyUpsert_cons_neg tn t now d rest (by simpa using hm), containsKey_cons,
        Bool.or_eq_true]
      exact Or.inr ih

/-- Helper: when the upserted key is already stored, the upsert rewrites a
document in place and the tenant's document count is unchanged. -/
theorem countTenant_applyUpsert_of (tn : String) (t : UpstreamTicket) (now : Nat) :
    ∀ db : List TicketDoc, containsKey db tn t.id = true →
      countTenant (applyUpsert tn t now db).2 tn = countTenant db tn := by
  intro db
  induction db with
  | nil => intro h; simp [containsKey] at h
  | cons d rest ih =>
    intro h
    by_cases hm : d.matchesKey tn t.id = true
    · obtain ⟨hm1, hm2⟩ := (matchesKey_true_iff d tn t.id).mp hm
      rw [applyUpsert_cons_pos tn t now d rest hm, countTenant_cons, countTenant_cons]
      have hset : (upsertSetFields tn t now d).tenant_id = tn := rfl
      rw [hset, hm1]
    · rw [containsKey_cons, Bool.or_eq_true] at h
      have h2 : containsKey rest tn t.id = true := by
        rcases h with h | h
        · exact absurd h hm
        · exact h
      rw [applyUpsert_cons_neg tn t now d rest (by simpa using hm), countTenant_cons,
        countTenant_cons, ih h2]

/-- Helper: a full ingestion pass never removes a stored key. -/
theorem containsKey_runUpserts_of (tn : String) (now : Nat) (eid : String) :
    ∀ (ts : List UpstreamTicket) (db : List TicketDoc),
      containsKey db tn eid = true → containsKey (runUpserts tn now ts db) tn eid = true := by
  intro ts
  induction ts with
  | nil => intro db h; simpa [runUpserts_nil] using h
  | cons t ts ih =>
    intro db h
    rw [runUpserts_cons]
    exact ih _ (containsKey_applyUpsert_of tn t now eid db h)

/-- Helper: after a full ingestion pass, every payload's key is stored. -/
theorem containsKey_runUpserts_self (tn : String) (now : Nat) :
    ∀ (ts : List UpstreamTicket) (db : List TicketDoc), ∀ t ∈ ts,
      containsKey (runUpserts tn now ts db) tn t.id = true := by
  intro ts
  induction ts with
  | nil => intro db t ht; simp at ht
  | cons t0 ts ih =>
    intro db t ht
    rw [runUpserts_cons]
    rcases List.mem_cons.mp ht with ht | ht
    · subst ht
      exact containsKey_runUpserts_of tn now t.id ts _
        (containsKey_applyUpsert_self tn t now db)
    · exact ih _ t ht

/-- Helper: an ingestion pass whose payload keys are all already stored
leaves the tenant's document count unchanged. -/
theorem countTenant_runUpserts_of (tn : String) (now : Nat) :
    ∀ (ts : List UpstreamTicket) (db : List TicketDoc),
      (∀ t ∈ ts, containsKey db tn t.id = true) →
      countTenant (runUpserts tn now ts db) tn = countTenant db tn := by
  intro ts
  induction ts with
  | nil => intro db _; rw [runUpserts_nil]
  | cons t ts ih =>
    intro db h
    rw [runUpserts_cons]
    have hkeys : ∀ t' ∈ ts, containsKey (applyUpsert tn t now db).2 tn t'.id = true :=
      fun t' ht' => containsKey_applyUpsert_of tn t now t'.id db (h t' (List.mem_cons_of_mem t ht'))
    rw [ih _ hkeys]
    exact countTenant_applyUpsert_of tn t now db (h t (List.mem_cons_self t ts))

/-- Claim C6 (counterexample): re-applying the very same upsert input is not
a no-op — after a first ingestion upsert of `samplePayload` at wall-clock
time 1, re-applying the identical payload at time 2 matches the stored
document but reports `modified_count = 1` and rewrites the document (its
`updated_at` is stamped with the new ingestion time), where the claim
requires `modified_count = 0` and an unchanged store. -/
theorem reapplied_upsert_is_not_noop :
    (applyUpsert "tenant_a" samplePayload 2 storeAfterFirstUpsert).1
      = { matched := true, modified_count := 1, upserted := false }
    ∧ (applyUpsert "tenant_a" samplePayload 2 storeAfterFirstUpsert).2
      ≠ storeAfterFirstUpsert := by
  refine ⟨by decide, by decide⟩

/-- Claim C6 (amended): the ingestion upsert never inserts a second document
for a stored `(tenant_id, external_id)` key, so running the ingestion pass a
second time over the same upstream payload list leaves the tenant's ticket
document count unchanged — but the re-run is not a byte-level no-op, since
every upsert overwrites `updated_at` with the current ingestion time and
reports `modified_count = 1` when that timestamp differs. -/
theorem ingestion_rerun_preserves_tenant_count (db : List TicketDoc)
    (ts : List UpstreamTicket) (tn : String) (t1 t2 : Nat) :
    countTenant (runUpserts tn t2 ts (runUpserts tn t1 ts db)) tn
      = countTenant (runUpserts tn t1 ts db) tn :=
  countTenant_runUpserts_of tn t2 ts (runUpserts tn t1 ts db)
    (fun t ht => containsKey_runUpserts_self tn t1 ts db t ht)

/-- Unfolding lemma: one step of the `$reduce` fold. -/
theorem highUrgencyFold_cons (a : Nat) (g : String × Nat) (gs : List (String × Nat)) :
    highUrgencyFold a (g :: gs)
      = highUrgencyFold (if g.1 == "high" then a + g.2 else a) gs := rfl

/-- Helper: the `$reduce` fold splits off its accumulator. -/
theorem highUrgencyFold_acc :
    ∀ (groups : List (String × Nat)) (a : Nat),
      highUrgencyFold a groups = a + highUrgencyFold 0 groups := by
  intro groups
  induction groups with
  | nil => intro a; simp [highUrgencyFold]
  | cons g gs ih =>
    intro a
    rw [highUrgencyFold_cons, highUrgencyFold_cons, ih, ih (if g.1 == "high" then 0 + g.2 else 0)]
    by_cases hg : g.1 == "high"
    · simp [hg]
      omega
    · simp [hg]

/-- Helper: the `$reduce` fold over one group document per distinct key picks
out the `"high"` group's count. -/
theorem highUrgencyFold_map (f : String → Nat) :
    ∀ ks : List String, ks.Nodup →
      highUrgencyFold 0 (ks.map (fun k => (k, f k)))
        = if "high" ∈ ks then f "high" else 0 := by
  intro ks
  induction ks with
  | nil => intro h; simp [highUrgencyFold]
  | cons k ks ih =>
    intro hnd
    obtain ⟨hk, hnd2⟩ := List.nodup_cons.mp hnd
    rw [List.map_cons, highUrgencyFold_cons, highUrgencyFold_acc, ih hnd2]
    by_cases hkh : k = "high"
    · subst hkh
      simp [hk]
    · have hbeq : (k == "high") = false := by simpa using hkh
      have hne : ¬("high" = k) := fun h => hkh h.symm
      simp [hbeq, List.mem_cons, hne]

/-- Helper: the `$reduce` over the `by_urgency` facet computes the number of
occurrences of `"high"` among the grouped keys. -/
theorem highUrgencyFold_groupCounts (keys : List String) :
    highUrgencyFold 0 (groupCounts keys) = keys.count "high" := by
  unfold groupCounts
  rw [highUrgencyFold_map (fun k => keys.count k) keys.dedup keys.nodup_dedup]
  by_cases h : "high" ∈ keys.dedup
  · simp [h]
  · have h2 : "high" ∉ keys := fun hm => h (List.mem_dedup.mpr hm)
    simp [h, List.count_eq_zero.mpr h2]

/-- Helper: counting a key among mapped urgencies is the length of the
corresponding filter. -/
theorem count_map_urgency (s : String) :
    ∀ l : List TicketDoc,
      (l.map (fun d => d.urgency)).count s = (l.filter (fun d => d.urgency == s)).length := by
  intro l
  induction l with
  | nil => rfl
  | cons d l ih =>
    by_cases h : d.urgency == s <;>
      simp [List.count_cons, List.filter_cons, h, ih]

/-- Claim C8: for every store, tenant and date range, the
`urgency_high_ratio` of the stats pipeline equals the number of non-deleted
tickets of the tenant with `urgency == "high"` divided by the number of
non-deleted tickets of the tenant, and equals 0 when that total is 0
(including a store holding no ticket of the tenant at all: the `$facet`
stage still emits its one document and the `$cond` falls through to 0). -/
theorem urgency_high_ratio_eq (db : List TicketDoc) (tenant_id : String)
    (from_date to_date : Nat) :
    (AnalyticsService.get_tenant_stats db tenant_id from_date to_date).urgency_high_ratio
      = (if (db.filter (fun d => d.tenant_id == tenant_id && d.deleted_at == none)).length = 0
         then 0
         else (((db.filter (fun d => d.tenant_id == tenant_id && d.deleted_at == none)).filter
                  (fun d => d.urgency == "high")).length : ℚ)
              / ((db.filter (fun d => d.tenant_id == tenant_id && d.deleted_at == none)).length : ℚ)) := by
  have hfil : db.filter (fun d => d.tenant_id == tenant_id && d.deleted_at == none)
      = db.filter (analyticsMatch tenant_id) := rfl
  rw [hfil]
  simp only [AnalyticsService.get_tenant_stats]
  by_cases h0 : (db.filter (analyticsMatch tenant_id)).length = 0
  · simp [facetTotal, h0]
  · have hlen : facetTotal (db.filter (analyticsMatch tenant_id))
        = some (db.filter (analyticsMatch tenant_id)).length := by
      simp [facetTotal, h0]
    rw [hlen]
    rw [highUrgencyFold_groupCounts, count_map_urgency]
    simp [h0, Nat.pos_of_ne_zero h0]
